import Mathlib

/-!
Verification of the mod-reconciliation engine of `server_updater`
(`src/server_updater/main.py`, configuration in `src/server_updater/config.py`).

The Python code is shallowly embedded as follows.

* The filesystem is a structure `FS` recording, for every path string, whether
  `os.path.isdir` holds and the `os.path.getctime` creation time (an integer
  Unix timestamp; `datetime.fromtimestamp` is strictly monotone, so comparing
  the two `datetime` values in `_mod_needs_update` is the same as comparing the
  underlying integer timestamps).
* The remote changelog endpoint (`request.urlopen` + `PATTERN.search` in
  `_mod_needs_update`) is a function `Remote : String → Option Int`: `none`
  models a response in which the timestamp marker pattern does not match,
  `some u` models a matched Unix timestamp `u`.
* The external fetch tool (`self._steamcmd.run(update_type=UpdateType.MOD, ...)`)
  is an arbitrary filesystem transformer `Fetcher : FS → String → FS` applied to
  the requested mod id; `time.sleep(5)` has no observable effect in the model.
* Observable actions (network reads of the changelog, fetch invocations,
  `shutil.rmtree`, the `SKIPPING` message of `_update_mods`, and the
  `!! Updating ... failed !!` message of `_try_to_update_mod`) are recorded in
  an `Event` trace returned alongside each function's result.
* Python dicts (`mods_to_update`, `updated_mods`) are association lists in
  insertion order.
-/

/-- `A3_SERVER_DIR` from `config.py`. -/
def A3_SERVER_DIR : String := "/home/arma/steamcmd/arma3"

/-- `A3_WORKSHOP_ID` from `config.py`. -/
def A3_WORKSHOP_ID : String := "107410"

/-- `A3_WORKSHOP_DIR` from `config.py`. -/
def A3_WORKSHOP_DIR : String :=
  A3_SERVER_DIR ++ "/steamapps/workshop/content/" ++ A3_WORKSHOP_ID

/-- `A3_MODS_DIR` from `config.py`. -/
def A3_MODS_DIR : String := A3_SERVER_DIR

/-- `A3_MOD_KEYS_SOURCE_DIRECTORY` from `config.py` (same path as
`A3_WORKSHOP_DIR`). -/
def A3_MOD_KEYS_SOURCE_DIRECTORY : String :=
  A3_SERVER_DIR ++ "/steamapps/workshop/content/" ++ A3_WORKSHOP_ID

/-- The content-store path of a mod, `f"{A3_WORKSHOP_DIR}/{mod_id}"`. -/
def modPath (mod_id : String) : String := A3_WORKSHOP_DIR ++ "/" ++ mod_id

/-- Python's `str.lower()` on the entry names handled here (ASCII), written
over the character list so that it evaluates by kernel reduction. -/
def lowerStr (s : String) : String := String.mk (s.data.map Char.toLower)

/-- Python's `str.endswith(suf)`, written over the character lists. -/
def strEndsWith (s suf : String) : Bool := suf.data.isSuffixOf s.data

/-- String prefix test over the character lists (used to model `shutil.rmtree`
removing every path below the deleted directory). -/
def strIsPrefixOf (p s : String) : Bool := p.data.isPrefixOf s.data

/-- Filesystem state seen by the reconciler: directory existence and creation
times, both indexed by path. -/
structure FS where
  isDir : String → Bool
  ctime : String → Int

/-- `shutil.rmtree(path)`: the directory at `path` and everything below it
stops existing. -/
def FS.rmtree (fs : FS) (path : String) : FS :=
  { fs with
    isDir := fun p => if p = path || strIsPrefixOf (path ++ "/") p then false else fs.isDir p }

/-- Observable actions of one reconciliation pass. -/
inductive Event where
  /-- network read of the remote changelog for a mod id (`request.urlopen` in
  `_mod_needs_update`) -/
  | oracle (mod_id : String)
  /-- one invocation of the external fetch tool for a mod id
  (`self._steamcmd.run(update_type=UpdateType.MOD, mod_id=...)`) -/
  | fetch (mod_id : String)
  /-- `shutil.rmtree(mod_path)` in `_delete_mod_if_needed` -/
  | rmtree (path : String)
  /-- the `No update required for "..." ... SKIPPING` message in `_update_mods` -/
  | skip (mod_name : String)
  /-- the `!! Updating ... failed after ... tries !!` message in
  `_try_to_update_mod` -/
  | failed (mod_name : String)
  deriving DecidableEq

/-- Behaviour of the remote changelog endpoint per mod id. -/
def Remote : Type := String → Option Int

/-- Behaviour of the external fetch tool: given the current filesystem and the
requested mod id, the filesystem after the invocation. -/
def Fetcher : Type := FS → String → FS

/-- `ServerUpdater._mod_needs_update(mod_id, path)`: returns `False` when the
path is not a directory (no network read); otherwise reads the remote
changelog (one `Event.oracle`), returns `False` when the timestamp pattern
does not match, else `updated_at >= created_at`. -/
def mod_needs_update (remote : Remote) (fs : FS) (mod_id path : String) :
    Bool × List Event :=
  if fs.isDir path = false then
    (false, [])
  else
    match remote mod_id with
    | none => (false, [Event.oracle mod_id])
    | some updated_at => (decide (updated_at ≥ fs.ctime path), [Event.oracle mod_id])

/-- `ServerUpdater._delete_mod_if_needed(mod_id, mod_path)`: computes
`is_dir`, calls `_mod_needs_update` once (binding the result to a local that
is never read again), returns `(False, False)` when not a directory, otherwise
calls `_mod_needs_update` a second time; on a stale mod it `rmtree`s the path
and returns `(True, True)`, else `(True, False)`. -/
def delete_mod_if_needed (remote : Remote) (fs : FS) (mod_id mod_path : String) :
    (Bool × Bool) × FS × List Event :=
  let is_dir := fs.isDir mod_path
  let c1 := mod_needs_update remote fs mod_id mod_path
  if is_dir = false then
    ((false, false), fs, c1.2)
  else
    let c2 := mod_needs_update remote fs mod_id mod_path
    if c2.1 = false then
      ((true, false), fs, c1.2 ++ c2.2)
    else
      ((true, true), fs.rmtree mod_path, c1.2 ++ c2.2 ++ [Event.rmtree mod_path])

/-- The `while not is_dir and tries < 10` loop of
`ServerUpdater._try_to_update_mod`. Note that `is_dir` is the parameter of the
enclosing Python function and is never reassigned in the loop body, so the
loop condition re-reads the same boolean on every iteration. Each iteration
invokes the fetch tool and increments `tries` by one; the loop therefore
executes at most `10 - tries` iterations, and the structural `fuel` argument
(always called with `fuel = 10 ≥ 10 - tries`) never cuts an iteration the
condition would have allowed. Returns the final `tries`, the final filesystem
and the trace. -/
def tryLoop (fetch : Fetcher) (mod_id : String) (is_dir : Bool) :
    Nat → Nat → FS → Nat × FS × List Event
  | 0, tries, fs => (tries, fs, [])
  | fuel + 1, tries, fs =>
    if is_dir = false ∧ tries < 10 then
      let fs2 := fetch fs mod_id
      let r := tryLoop fetch mod_id is_dir fuel (tries + 1) fs2
      (r.1, r.2.1, Event.fetch mod_id :: r.2.2)
    else
      (tries, fs, [])

/-- `ServerUpdater._try_to_update_mod(mod_id, mod_name, is_dir)`: runs the
retry loop starting from `tries = 0`; if afterwards `tries >= max_tries`
(`max_tries = 10`) it logs the failure message and returns `False`, else
returns `True`. -/
def try_to_update_mod (fetch : Fetcher) (mod_id mod_name : String)
    (is_dir : Bool) (fs : FS) : Bool × FS × List Event :=
  let max_tries := 10
  let r := tryLoop fetch mod_id is_dir 10 0 fs
  if r.1 ≥ max_tries then
    (false, r.2.1, r.2.2 ++ [Event.failed mod_name])
  else
    (true, r.2.1, r.2.2)

/-- The `for mod_name, mod_id in mods_to_update.items()` loop of
`ServerUpdater._update_mods`, threading the filesystem through the pass and
accumulating `updated_mods` in insertion order. -/
def update_mods_go (remote : Remote) (fetch : Fetcher) :
    List (String × String) → FS → List (String × String) × FS × List Event
  | [], fs => ([], fs, [])
  | (mod_name, mod_id) :: rest, fs =>
    let mod_path := A3_WORKSHOP_DIR ++ "/" ++ mod_id
    let d := delete_mod_if_needed remote fs mod_id mod_path
    let is_dir := d.1.1
    let needs := d.1.2
    if is_dir && !needs then
      let r := update_mods_go remote fetch rest d.2.1
      (r.1, r.2.1, d.2.2 ++ Event.skip mod_name :: r.2.2)
    else
      let t := try_to_update_mod fetch mod_id mod_name is_dir d.2.1
      let r := update_mods_go remote fetch rest t.2.1
      ((if t.1 then (mod_name, mod_id) :: r.1 else r.1), r.2.1,
        d.2.2 ++ t.2.2 ++ r.2.2)

/-- `ServerUpdater._update_mods(mods_to_update)`: runs the pass and returns
`None` when `updated_mods` ended up empty, else the `updated_mods` dict. -/
def update_mods (remote : Remote) (fetch : Fetcher) (fs : FS)
    (mods_to_update : List (String × String)) :
    Option (List (String × String)) × FS × List Event :=
  let r := update_mods_go remote fetch mods_to_update fs
  (if r.1 = [] then none else some r.1, r.2.1, r.2.2)

/-- `fetch` applied `k` times in a row to the same mod id (the cumulative
filesystem effect of `k` loop iterations of `_try_to_update_mod`). -/
def fetchIter (fetch : Fetcher) (mod_id : String) : Nat → FS → FS
  | 0, fs => fs
  | k + 1, fs => fetchIter fetch mod_id k (fetch fs mod_id)

/-!
Layout Normalizer (`ServerUpdater._lower_case_mods`).

A mod's content tree is a `DirTree`: each node lists its subdirectories (name and
subtree) and its file names. `os.walk(directory_path)` (with the default
`topdown=True` and `onerror=None`) yields the triple of a directory before
descending into its subdirectories. The loop body renames every entry of the
current `root` whose joined path differs from its lower-cased joined path.
The walk root `f"{A3_WORKSHOP_DIR}/{value}"` is all lower-case (the
configuration path is lower-case and mod ids are numeric), so every visited
`root` is all lower-case and lowering the joined path lowers exactly the entry
name. After the loop, the walk descends into each subdirectory under its
*original* name: for a subdirectory that was just renamed, `scandir` of the
old name fails, the error is swallowed (`onerror=None`) and the whole subtree
is skipped. The model assumes no two sibling entries share a lower-cased name,
so a rename never collides with an existing entry.

`lowerWalk` returns the resulting tree together with the number of `os.rename`
operations performed.
-/

/-- A directory tree: subdirectories (name with subtree) and file names. -/
inductive DirTree where
  | node (dirs : List (String × DirTree)) (files : List String) : DirTree

mutual

/-- Effect of `_lower_case_mods`' walk on one directory tree (see the section
comment); second component counts `os.rename` calls. -/
def lowerWalk : DirTree → DirTree × Nat
  | .node dirs files =>
    let d := lowerDirs dirs
    (DirTree.node d.1 (files.map lowerStr),
      (files.filter (fun f => decide (¬ lowerStr f = f))).length + d.2)

/-- Effect of the walk on the subdirectory entries of one node: an entry whose
name is already lower-case is descended into; an entry with upper-case letters
is renamed (one rename) and its subtree is skipped because the walk then fails
to descend into the old name. -/
def lowerDirs : List (String × DirTree) → List (String × DirTree) × Nat
  | [] => ([], 0)
  | (d, t) :: rest =>
    let r := lowerDirs rest
    if lowerStr d = d then
      let w := lowerWalk t
      ((d, w.1) :: r.1, w.2 + r.2)
    else
      ((lowerStr d, t) :: r.1, 1 + r.2)

end

mutual

/-- Every file and directory name in the tree is fully lower-case. -/
def treeAllLower : DirTree → Bool
  | .node dirs files =>
    files.all (fun f => decide (lowerStr f = f)) && dirsAllLower dirs

/-- Every subdirectory entry has a lower-case name and an all-lower-case
subtree. -/
def dirsAllLower : List (String × DirTree) → Bool
  | [] => true
  | (d, t) :: rest => decide (lowerStr d = d) && treeAllLower t && dirsAllLower rest

end

/-- `ServerUpdater._lower_case_mods(updated_mods)`: walks the content tree of
every updated mod (trees indexed by mod id); returns the updated trees and the
total number of renames. -/
def lower_case_mods (trees : String → DirTree) (updated_mods : List (String × String)) :
    (String → DirTree) × Nat :=
  updated_mods.foldl
    (fun acc m =>
      let r := lowerWalk (acc.1 m.2)
      (fun i => if i = m.2 then r.1 else acc.1 i, acc.2 + r.2))
    (trees, 0)

/-!
Link Manager (`ServerUpdater._create_mod_symlinks`).

`LinkFS` records which paths are directories (`os.path.isdir`), which are
symbolic links (`os.path.islink`) and each link's target. `os.symlink` makes
the link path a link with the given target; it does not change whether the
content-store paths queried by the code are directories. (The uncaught
`FileExistsError` that `os.symlink` would raise when a non-link entry already
occupies the link path is outside the claims and not modelled.)
-/

/-- Filesystem state seen by the link manager. -/
structure LinkFS where
  isDir : String → Bool
  isLink : String → Bool
  linkTarget : String → Option String

/-- `f"{A3_MODS_DIR}/{mod_name}"`. -/
def linkPath (mod_name : String) : String := A3_MODS_DIR ++ "/" ++ mod_name

/-- `f"{A3_WORKSHOP_DIR}/{mod_id}"` as used by `_create_mod_symlinks`. -/
def realPath (mod_id : String) : String := A3_WORKSHOP_DIR ++ "/" ++ mod_id

/-- One iteration of the `for mod_name, mod_id in updated_mods.items()` loop
of `_create_mod_symlinks`: warn and continue when the target is not a
directory, continue when the link path is already a symlink, otherwise create
the symlink. -/
def symlinkStep (fs : LinkFS) (mod_name mod_id : String) : LinkFS :=
  if fs.isDir (realPath mod_id) = false then
    fs
  else if fs.isLink (linkPath mod_name) = true then
    fs
  else
    { fs with
      isLink := fun p => if p = linkPath mod_name then true else fs.isLink p,
      linkTarget := fun p =>
        if p = linkPath mod_name then some (realPath mod_id) else fs.linkTarget p }

/-- `ServerUpdater._create_mod_symlinks(updated_mods)`. -/
def create_mod_symlinks (fs : LinkFS) (updated_mods : List (String × String)) :
    LinkFS :=
  updated_mods.foldl (fun g m => symlinkStep g m.1 m.2) fs

/-!
Key Propagator (`ServerUpdater._copy_key_files`).

A mod's content tree with file contents is a `KTree`. The destination
directory `A3_MOD_KEYS_DESTINATION_DIRECTORY` is flat, so it is modelled as a
map from file name to content; `shutil.copy` overwrites an existing
destination file. `os.walk` visits a directory's files before descending into
its subdirectories in order.
-/

/-- A directory tree with file contents: subdirectories and files
(name, content). -/
inductive KTree where
  | node (dirs : List (String × KTree)) (files : List (String × String)) : KTree

/-- State threaded through `_copy_key_files`: the flat destination directory
(file name to content) and the `was_copied` flag. -/
structure KeyDest where
  dest : String → Option String
  was_copied : Bool

/-- The `for file in files` body of `_copy_key_files` over the files of one
walked directory: skip names not ending in `.bikey`, copy the rest into the
flat destination (overwriting) and set `was_copied`. -/
def copyKeyFilesList : List (String × String) → KeyDest → KeyDest
  | [], st => st
  | fc :: rest, st =>
    if strEndsWith fc.1 ".bikey" = false then
      copyKeyFilesList rest st
    else
      copyKeyFilesList rest
        { dest := fun p => if p = fc.1 then some fc.2 else st.dest p,
          was_copied := true }

mutual

/-- `os.walk` of one tree inside `_copy_key_files`: this directory's files
first, then each subdirectory in order. -/
def copyKeysTree (t : KTree) (st : KeyDest) : KeyDest :=
  match t with
  | .node dirs files => copyKeysDirs dirs (copyKeyFilesList files st)

/-- Walk of a node's subdirectory entries in order. -/
def copyKeysDirs : List (String × KTree) → KeyDest → KeyDest
  | [], st => st
  | dt :: rest, st => copyKeysDirs rest (copyKeysTree dt.2 st)

end

/-- Outcome reported by `_copy_key_files`: the
`There are no MODs sign key files to copy` message or the
`MODs sign key files was successfully copied.` message. -/
inductive KeyReport where
  | nothingToCopy
  | success
  deriving DecidableEq

/-- `ServerUpdater._copy_key_files(updated_mods)`: walks every updated mod's
content tree (trees indexed by mod id, `was_copied` starting `False`), then
reports `nothingToCopy` when no key file was copied and `success` otherwise.
Returns the final destination directory and the report. -/
def copy_key_files (trees : String → KTree) (dest0 : String → Option String)
    (updated_mods : List (String × String)) :
    (String → Option String) × KeyReport :=
  let st := updated_mods.foldl (fun st m => copyKeysTree (trees m.2) st)
    { dest := dest0, was_copied := false }
  (st.dest, if st.was_copied = false then KeyReport.nothingToCopy else KeyReport.success)

mutual

/-- All `.bikey` files of a tree in walk order, for stating properties of
`copy_key_files`. -/
def collectBikeys : KTree → List (String × String)
  | .node dirs files =>
    files.filter (fun fc => strEndsWith fc.1 ".bikey") ++ collectBikeysDirs dirs

/-- All `.bikey` files under a node's subdirectory entries in walk order. -/
def collectBikeysDirs : List (String × KTree) → List (String × String)
  | [] => []
  | dt :: rest => collectBikeys dt.2 ++ collectBikeysDirs rest

end

/-- All `.bikey` files across the updated mods' trees, in processing order. -/
def collectAll (trees : String → KTree) : List (String × String) → List (String × String)
  | [] => []
  | m :: rest => collectBikeys (trees m.2) ++ collectAll trees rest

/-- In-order application of a list of copies to the flat destination
directory. -/
def applyCopies : List (String × String) → (String → Option String) → String → Option String
  | [], d => d
  | fc :: rest, d => applyCopies rest (fun p => if p = fc.1 then some fc.2 else d p)

/-!
Concrete scenarios used to evaluate the code on specific inputs.
-/

/-- A disk with no mod directories. -/
def fsEmpty : FS := { isDir := fun _ => false, ctime := fun _ => 0 }

/-- A disk holding exactly the content directory of mod id `"1"`, created at
time `ct`. -/
def fsOne (ct : Int) : FS :=
  { isDir := fun p => decide (p = modPath "1"), ctime := fun _ => ct }

/-- A fetch tool that (re)creates the requested mod's content directory with
creation time `ct` and touches nothing else. -/
def fetchCreate (ct : Int) : Fetcher := fun fs i =>
  { isDir := fun p => if p = modPath i then true else fs.isDir p,
    ctime := fun p => if p = modPath i then ct else fs.ctime p }

/-- A fetch tool with no filesystem effect at all. -/
def fetchNone : Fetcher := fun fs _ => fs

/-- A changelog endpoint answering every mod with update timestamp `u`. -/
def remoteConst (u : Int) : Remote := fun _ => some u

/-- A changelog endpoint whose response never matches the timestamp
pattern. -/
def remoteNone : Remote := fun _ => none

/-- A tree with all names already lower-case (witness input). -/
def dirTreeW : DirTree :=
  DirTree.node [("addons", DirTree.node [] ["mod.pbo"])] ["meta.cpp"]

/-- The spec's normalization test tree: `MixedCase.PBO` nested inside
`UPPER_DIR`. -/
def mixedTree : DirTree :=
  DirTree.node [("UPPER_DIR", DirTree.node [] ["MixedCase.PBO"])] []

/-- A link-manager disk where every content path is a directory and no link
exists yet. -/
def linkFS0 : LinkFS :=
  { isDir := fun _ => true, isLink := fun _ => false, linkTarget := fun _ => none }

/-- A content tree holding one signing key (witness input). -/
def ktreeW : KTree := KTree.node [] [("a.bikey", "KEYBYTES")]

/-- Every mod id mapped to the one-key tree `ktreeW`. -/
def ktreesW : String → KTree := fun _ => ktreeW

/-!
Helper lemmas about the reconciler.
-/

theorem mod_needs_update_absent (remote : Remote) (fs : FS) (mod_id path : String)
    (h : fs.isDir path = false) :
    mod_needs_update remote fs mod_id path = (false, []) := by
  simp [mod_needs_update, h]

theorem delete_mod_if_needed_absent (remote : Remote) (fs : FS)
    (mod_id mod_path : String) (h : fs.isDir mod_path = false) :
    delete_mod_if_needed remote fs mod_id mod_path = ((false, false), fs, []) := by
  simp [delete_mod_if_needed, h, mod_needs_update_absent]

theorem fetchIter_absent (fetch : Fetcher) (mod_id : String)
    (hnever : ∀ (g : FS) (i : String), g.isDir (modPath mod_id) = false →
      (fetch g i).isDir (modPath mod_id) = false) :
    ∀ (k : Nat) (fs : FS), fs.isDir (modPath mod_id) = false →
      (fetchIter fetch mod_id k fs).isDir (modPath mod_id) = false := by
  intro k
  induction k with
  | zero => intro fs h; exact h
  | succ n ih =>
    intro fs h
    simp only [fetchIter]
    exact ih (fetch fs mod_id) (hnever fs mod_id h)

theorem tryLoop_run (fetch : Fetcher) (mod_id : String) :
    ∀ (k fuel tries : Nat) (fs : FS), tries + k = 10 → k ≤ fuel →
      tryLoop fetch mod_id false fuel tries fs =
        (10, fetchIter fetch mod_id k fs, List.replicate k (Event.fetch mod_id)) := by
  intro k
  induction k with
  | zero =>
    intro fuel tries fs h hf
    have ht : tries = 10 := by omega
    subst ht
    cases fuel <;> simp [tryLoop, fetchIter]
  | succ n ih =>
    intro fuel tries fs h hf
    cases fuel with
    | zero => omega
    | succ m =>
      simp only [tryLoop]
      rw [if_pos (show True ∧ tries < 10 from ⟨trivial, by omega⟩)]
      rw [ih m (tries + 1) (fetch fs mod_id) (by omega) (by omega)]
      simp [fetchIter, List.replicate_succ]

theorem tryLoop_present (fetch : Fetcher) (mod_id : String) (fuel tries : Nat)
    (fs : FS) : tryLoop fetch mod_id true fuel tries fs = (tries, fs, []) := by
  cases fuel <;> simp [tryLoop]

theorem try_to_update_mod_absent (fetch : Fetcher) (mod_id mod_name : String)
    (fs : FS) :
    try_to_update_mod fetch mod_id mod_name false fs =
      (false, fetchIter fetch mod_id 10 fs,
        List.replicate 10 (Event.fetch mod_id) ++ [Event.failed mod_name]) := by
  unfold try_to_update_mod
  rw [tryLoop_run fetch mod_id 10 10 0 fs rfl (by omega)]
  simp

theorem try_to_update_mod_present (fetch : Fetcher) (mod_id mod_name : String)
    (fs : FS) :
    try_to_update_mod fetch mod_id mod_name true fs = (true, fs, []) := by
  unfold try_to_update_mod
  rw [tryLoop_present]
  simp

/-- C5: for a mod whose content-store directory is absent and whose fetch
adapter never produces the expected directory, one reconciliation pass
performs exactly 10 fetch attempts for that mod, logs the FAILED message, does
not skip it, leaves the directory still absent, and continues: the pass's
result on the remaining mods is exactly the pass over `rest` started from the
filesystem left by the 10 attempts, with the failed mod contributing nothing
to the Updated-Mod Set. -/
theorem c5_bounded_retry (remote : Remote) (fetch : Fetcher) (fs : FS)
    (mod_name mod_id : String) (rest : List (String × String))
    (habs : fs.isDir (modPath mod_id) = false)
    (hnever : ∀ (g : FS) (i : String), g.isDir (modPath mod_id) = false →
      (fetch g i).isDir (modPath mod_id) = false) :
    ∃ evs : List Event, ∃ fs2 : FS,
      update_mods_go remote fetch ((mod_name, mod_id) :: rest) fs =
        ((update_mods_go remote fetch rest fs2).1,
          (update_mods_go remote fetch rest fs2).2.1,
          evs ++ (update_mods_go remote fetch rest fs2).2.2) ∧
      (evs.filter (fun e => e = Event.fetch mod_id)).length = 10 ∧
      Event.failed mod_name ∈ evs ∧
      (evs.filter (fun e => e = Event.skip mod_name)).length = 0 ∧
      fs2.isDir (modPath mod_id) = false := by
  refine ⟨List.replicate 10 (Event.fetch mod_id) ++ [Event.failed mod_name],
    fetchIter fetch mod_id 10 fs, ?_, ?_, ?_, ?_, ?_⟩
  · simp only [update_mods_go]
    rw [delete_mod_if_needed_absent remote fs mod_id
      (A3_WORKSHOP_DIR ++ "/" ++ mod_id) habs]
    simp only [Bool.false_and, Bool.false_eq_true, if_false]
    rw [try_to_update_mod_absent]
    simp
  · simp [List.filter_append, List.filter_replicate]
  · simp
  · simp [List.filter_append, List.filter_replicate]
  · exact fetchIter_absent fetch mod_id hnever 10 fs habs

/-- Witness for `c5_bounded_retry` at a concrete input: one desired mod
`("foo", "1")` with an absent directory and an effect-free fetch tool. -/
theorem c5_bounded_retry_witness :
    ∃ evs : List Event, ∃ fs2 : FS,
      update_mods_go remoteNone fetchNone [("foo", "1")] fsEmpty =
        ((update_mods_go remoteNone fetchNone [] fs2).1,
          (update_mods_go remoteNone fetchNone [] fs2).2.1,
          evs ++ (update_mods_go remoteNone fetchNone [] fs2).2.2) ∧
      (evs.filter (fun e => e = Event.fetch "1")).length = 10 ∧
      Event.failed "foo" ∈ evs ∧
      (evs.filter (fun e => e = Event.skip "foo")).length = 0 ∧
      fs2.isDir (modPath "1") = false :=
  c5_bounded_retry remoteNone fetchNone fsEmpty "foo" "1" [] rfl
    (fun _ _ h => h)

/-- C6: the staleness check of `_mod_needs_update` returns false when the
local path is not a directory, returns false when the remote response has no
timestamp marker, and otherwise returns true exactly when
`remote_updated_at >= local_created_at`. -/
theorem c6_staleness_check (remote : Remote) (fs : FS) (mod_id path : String) :
    (fs.isDir path = false → (mod_needs_update remote fs mod_id path).1 = false) ∧
    (remote mod_id = none → (mod_needs_update remote fs mod_id path).1 = false) ∧
    (∀ u : Int, remote mod_id = some u → fs.isDir path = true →
      ((mod_needs_update remote fs mod_id path).1 = true ↔ u ≥ fs.ctime path)) := by
  refine ⟨?_, ?_, ?_⟩
  · intro h
    simp [mod_needs_update, h]
  · intro h
    by_cases hd : fs.isDir path = false <;> simp [mod_needs_update, h, hd]
  · intro u hu hd
    simp [mod_needs_update, hd, hu]

/-- Witness for `c6_staleness_check`: a directory created at time 3 with
remote update timestamp 5 is reported stale. -/
theorem c6_staleness_check_witness :
    (mod_needs_update (remoteConst 5) (fsOne 3) "1" (modPath "1")).1 = true :=
  ((c6_staleness_check (remoteConst 5) (fsOne 3) "1" (modPath "1")).2.2 5 rfl
    (by decide)).mpr (by decide)

/-- C1 fails on the code: with one desired mod `("foo", "1")`, no local
directory, remote timestamp 50 and a fetch tool that creates the directory on
its first invocation, the pass still performs all 10 fetch attempts (the
directory's existence is never re-checked inside `_try_to_update_mod`,
whose loop reads only the frozen `is_dir` parameter), reports the mod FAILED
and returns `None`, although the content-store directory exists on disk after
the fetch attempts of the pass. -/
theorem c1_no_recheck_bug :
    (update_mods (remoteConst 50) (fetchCreate 100) fsEmpty [("foo", "1")]).1 =
      none ∧
    ((update_mods (remoteConst 50) (fetchCreate 100) fsEmpty
      [("foo", "1")]).2.1).isDir (modPath "1") = true ∧
    ((update_mods (remoteConst 50) (fetchCreate 100) fsEmpty
      [("foo", "1")]).2.2.filter (fun e => e = Event.fetch "1")).length = 10 ∧
    Event.failed "foo" ∈
      (update_mods (remoteConst 50) (fetchCreate 100) fsEmpty
        [("foo", "1")]).2.2 := by
  refine ⟨by decide, by decide, by decide, by decide⟩

/-- C2 fails on the code: with one desired mod `("foo", "1")` whose directory
exists (created at time 0) and is stale (remote timestamp 5), the pass deletes
the directory but invokes the fetch tool zero times (`_try_to_update_mod`
receives `is_dir=True`, so its loop body never runs), and still records the
mod in the Updated-Mod Set. -/
theorem c2_stale_no_fetch_bug :
    Event.rmtree (modPath "1") ∈
      (update_mods (remoteConst 5) (fetchCreate 100) (fsOne 0)
        [("foo", "1")]).2.2 ∧
    ((update_mods (remoteConst 5) (fetchCreate 100) (fsOne 0)
      [("foo", "1")]).2.2.filter (fun e => e = Event.fetch "1")).length = 0 ∧
    (update_mods (remoteConst 5) (fetchCreate 100) (fsOne 0) [("foo", "1")]).1 =
      some [("foo", "1")] ∧
    ((update_mods (remoteConst 5) (fetchCreate 100) (fsOne 0)
      [("foo", "1")]).2.1).isDir (modPath "1") = false := by
  refine ⟨by decide, by decide, by decide, by decide⟩

/-- C4 fails on the code: one pass over a single present, fresh mod reads the
remote changelog twice (`_delete_mod_if_needed` calls `_mod_needs_update` on
line 195, discards the result, and calls it again on line 198). -/
theorem c4_double_oracle_bug :
    ((update_mods (remoteConst 5) fetchNone (fsOne 10)
      [("foo", "1")]).2.2.filter (fun e => e = Event.oracle "1")).length = 2 := by
  decide

/-- C7 fails on the code: starting from one stale mod `("foo", "1")`
(directory created at 0, remote timestamp 5, unchanged between runs; the
fetch tool creates the directory whenever invoked), the first `_update_mods`
run deletes the directory without fetching, so the second run finds it absent:
instead of skipping every mod, the second run performs 10 fetch attempts and
reports the mod FAILED (its Updated-Mod Set is `None`, but not by skipping). -/
theorem c7_second_run_bug :
    (update_mods (remoteConst 5) (fetchCreate 100)
      ((update_mods (remoteConst 5) (fetchCreate 100) (fsOne 0)
        [("foo", "1")]).2.1) [("foo", "1")]).1 = none ∧
    ((update_mods (remoteConst 5) (fetchCreate 100)
      ((update_mods (remoteConst 5) (fetchCreate 100) (fsOne 0)
        [("foo", "1")]).2.1) [("foo", "1")]).2.2.filter
        (fun e => e = Event.skip "foo")).length = 0 ∧
    ((update_mods (remoteConst 5) (fetchCreate 100)
      ((update_mods (remoteConst 5) (fetchCreate 100) (fsOne 0)
        [("foo", "1")]).2.1) [("foo", "1")]).2.2.filter
        (fun e => e = Event.fetch "1")).length = 10 ∧
    Event.failed "foo" ∈
      (update_mods (remoteConst 5) (fetchCreate 100)
        ((update_mods (remoteConst 5) (fetchCreate 100) (fsOne 0)
          [("foo", "1")]).2.1) [("foo", "1")]).2.2 := by
  refine ⟨by decide, by decide, by decide, by decide⟩

/-- C3 fails on the code: on the spec's own test tree (`MixedCase.PBO` inside
`UPPER_DIR`), the walk is top-down (`os.walk` default): it renames
`UPPER_DIR` to `upper_dir` first, then fails to descend into the now-missing
old name, so the nested file keeps its mixed-case name. Exactly one rename is
performed and the resulting tree is not fully lower-case, so the file is not
reachable at the fully-lowercased path. -/
theorem c3_topdown_walk_bug :
    (lowerWalk mixedTree).1 =
      DirTree.node [("upper_dir", DirTree.node [] ["MixedCase.PBO"])] [] ∧
    (lowerWalk mixedTree).2 = 1 ∧
    treeAllLower (lowerWalk mixedTree).1 = false := by
  refine ⟨by rfl, by decide, by decide⟩

theorem map_lowerStr_fixed (files : List String)
    (h : files.all (fun f => decide (lowerStr f = f)) = true) :
    files.map lowerStr = files := by
  induction files with
  | nil => rfl
  | cons f fs ih =>
    simp only [List.all_cons, Bool.and_eq_true, decide_eq_true_eq] at h
    simp [h.1, ih h.2]

theorem filter_lowerStr_nil (files : List String)
    (h : files.all (fun f => decide (lowerStr f = f)) = true) :
    files.filter (fun f => decide (¬ lowerStr f = f)) = [] := by
  induction files with
  | nil => rfl
  | cons f fs ih =>
    simp only [List.all_cons, Bool.and_eq_true, decide_eq_true_eq] at h
    rw [List.filter_cons, if_neg (by simp [h.1]), ih h.2]

mutual

theorem lowerWalk_fix : ∀ t : DirTree, treeAllLower t = true → lowerWalk t = (t, 0)
  | DirTree.node dirs files, h => by
    simp only [treeAllLower, Bool.and_eq_true] at h
    simp only [lowerWalk]
    rw [lowerDirs_fix dirs h.2, map_lowerStr_fixed files h.1,
      filter_lowerStr_nil files h.1]
    simp

theorem lowerDirs_fix :
    ∀ l : List (String × DirTree), dirsAllLower l = true → lowerDirs l = (l, 0)
  | [], _ => rfl
  | (d, t) :: rest, h => by
    simp only [dirsAllLower, Bool.and_eq_true, decide_eq_true_eq] at h
    obtain ⟨⟨hd, ht⟩, hrest⟩ := h
    simp only [lowerDirs]
    rw [lowerDirs_fix rest hrest, lowerWalk_fix t ht, if_pos hd]
    simp

end

/-- C10: on a directory tree in which every file and directory name is
already fully lower-case, the Layout Normalizer performs zero rename
operations and leaves the tree unchanged; consequently a second application
to the normalized result again performs no renames. -/
theorem c10_normalizer_noop (t : DirTree) (h : treeAllLower t = true) :
    lowerWalk t = (t, 0) ∧ lowerWalk (lowerWalk t).1 = (t, 0) := by
  have h1 := lowerWalk_fix t h
  refine ⟨h1, ?_⟩
  rw [h1]
  exact h1

/-- Witness for `c10_normalizer_noop` at a concrete all-lower-case tree. -/
theorem c10_normalizer_noop_witness :
    treeAllLower dirTreeW = true ∧ lowerWalk dirTreeW = (dirTreeW, 0) :=
  ⟨by decide, (c10_normalizer_noop dirTreeW (by decide)).1⟩

/-!
Helper lemmas about the Link Manager.
-/

theorem symlinkStep_skip_nodir (fs : LinkFS) (mod_name mod_id : String)
    (h : fs.isDir (realPath mod_id) = false) :
    symlinkStep fs mod_name mod_id = fs := by
  simp [symlinkStep, h]

theorem symlinkStep_skip_link (fs : LinkFS) (mod_name mod_id : String)
    (h : fs.isLink (linkPath mod_name) = true) :
    symlinkStep fs mod_name mod_id = fs := by
  by_cases hd : fs.isDir (realPath mod_id) = false <;> simp [symlinkStep, h, hd]

theorem symlinkStep_creates (fs : LinkFS) (mod_name mod_id : String)
    (hd : fs.isDir (realPath mod_id) = true)
    (hl : fs.isLink (linkPath mod_name) = false) :
    (symlinkStep fs mod_name mod_id).isLink (linkPath mod_name) = true ∧
    (symlinkStep fs mod_name mod_id).linkTarget (linkPath mod_name) =
      some (realPath mod_id) := by
  simp [symlinkStep, hd, hl]

/-- C8: the Link Manager creates a symlink for a mod only when the content
path is a directory and no symlink is present at the link path (and then the
created link points at the content path); when either condition fails the
call leaves the filesystem unchanged; a second call for the same mod is a
no-op, and any state in which the link path is already a symbolic link —
whatever its target or the directory's state — is left untouched. -/
theorem c8_link_idempotence (fs : LinkFS) (mod_name mod_id : String) :
    (create_mod_symlinks (create_mod_symlinks fs [(mod_name, mod_id)])
      [(mod_name, mod_id)] = create_mod_symlinks fs [(mod_name, mod_id)]) ∧
    (fs.isDir (realPath mod_id) = true → fs.isLink (linkPath mod_name) = false →
      (create_mod_symlinks fs [(mod_name, mod_id)]).isLink (linkPath mod_name) =
        true ∧
      (create_mod_symlinks fs [(mod_name, mod_id)]).linkTarget
        (linkPath mod_name) = some (realPath mod_id)) ∧
    (fs.isDir (realPath mod_id) = false ∨ fs.isLink (linkPath mod_name) = true →
      create_mod_symlinks fs [(mod_name, mod_id)] = fs) ∧
    (∀ g : LinkFS, g.isLink (linkPath mod_name) = true →
      create_mod_symlinks g [(mod_name, mod_id)] = g) := by
  have hsingle : ∀ g : LinkFS,
      create_mod_symlinks g [(mod_name, mod_id)] = symlinkStep g mod_name mod_id :=
    fun g => rfl
  simp only [hsingle]
  refine ⟨?_, ?_, ?_, fun g hg => symlinkStep_skip_link g mod_name mod_id hg⟩
  · by_cases hd : fs.isDir (realPath mod_id) = false
    · rw [symlinkStep_skip_nodir fs mod_name mod_id hd,
        symlinkStep_skip_nodir fs mod_name mod_id hd]
    · have hd2 : fs.isDir (realPath mod_id) = true := by
        revert hd; cases fs.isDir (realPath mod_id) <;> simp
      by_cases hl : fs.isLink (linkPath mod_name) = true
      · rw [symlinkStep_skip_link fs mod_name mod_id hl,
          symlinkStep_skip_link fs mod_name mod_id hl]
      · have hl2 : fs.isLink (linkPath mod_name) = false := by
          revert hl; cases fs.isLink (linkPath mod_name) <;> simp
        exact symlinkStep_skip_link _ mod_name mod_id
          (symlinkStep_creates fs mod_name mod_id hd2 hl2).1
  · intro hd hl
    exact symlinkStep_creates fs mod_name mod_id hd hl
  · intro hcase
    rcases hcase with hd | hl
    · exact symlinkStep_skip_nodir fs mod_name mod_id hd
    · exact symlinkStep_skip_link fs mod_name mod_id hl

/-- Witness for `c8_link_idempotence`: on a disk where the content path is a
directory and no link exists, the call creates the link. -/
theorem c8_link_idempotence_witness :
    (create_mod_symlinks linkFS0 [("foo", "1")]).isLink (linkPath "foo") = true :=
  ((c8_link_idempotence linkFS0 "foo" "1").2.1 rfl rfl).1

/-!
Helper lemmas about the Key Propagator.
-/

theorem appendIsEmpty (a b : List (String × String)) :
    (a ++ b).isEmpty = (a.isEmpty && b.isEmpty) := by
  cases a <;> simp

theorem applyCopies_append (a b : List (String × String))
    (d : String → Option String) :
    applyCopies (a ++ b) d = applyCopies b (applyCopies a d) := by
  induction a generalizing d with
  | nil => rfl
  | cons x xs ih =>
    simp only [List.cons_append, applyCopies]
    exact ih _

theorem copyKeyFilesList_spec (files : List (String × String)) (st : KeyDest) :
    copyKeyFilesList files st =
      { dest := applyCopies (files.filter (fun fc => strEndsWith fc.1 ".bikey"))
          st.dest,
        was_copied := st.was_copied ||
          !(files.filter (fun fc => strEndsWith fc.1 ".bikey")).isEmpty } := by
  induction files generalizing st with
  | nil => simp [copyKeyFilesList, applyCopies]
  | cons fc rest ih =>
    simp only [copyKeyFilesList, List.filter_cons]
    by_cases h : strEndsWith fc.1 ".bikey" = false
    · rw [if_pos h, if_neg (by simp [h]), ih]
    · have h2 : strEndsWith fc.1 ".bikey" = true := by
        revert h; cases strEndsWith fc.1 ".bikey" <;> simp
      rw [if_neg (by simp [h2]), if_pos h2, ih]
      simp [applyCopies]

mutual

theorem copyKeysTree_spec : ∀ (t : KTree) (st : KeyDest),
    copyKeysTree t st =
      { dest := applyCopies (collectBikeys t) st.dest,
        was_copied := st.was_copied || !(collectBikeys t).isEmpty }
  | KTree.node dirs files, st => by
    simp only [copyKeysTree, collectBikeys]
    rw [copyKeyFilesList_spec, copyKeysDirs_spec dirs]
    simp [applyCopies_append, appendIsEmpty, Bool.not_and, Bool.or_assoc]

theorem copyKeysDirs_spec : ∀ (l : List (String × KTree)) (st : KeyDest),
    copyKeysDirs l st =
      { dest := applyCopies (collectBikeysDirs l) st.dest,
        was_copied := st.was_copied || !(collectBikeysDirs l).isEmpty }
  | [], st => by simp [copyKeysDirs, collectBikeysDirs, applyCopies]
  | dt :: rest, st => by
    simp only [copyKeysDirs, collectBikeysDirs]
    rw [copyKeysTree_spec dt.2, copyKeysDirs_spec rest]
    simp [applyCopies_append, appendIsEmpty, Bool.not_and, Bool.or_assoc]

end

theorem copy_key_files_fold (trees : String → KTree)
    (mods : List (String × String)) (st : KeyDest) :
    mods.foldl (fun st m => copyKeysTree (trees m.2) st) st =
      { dest := applyCopies (collectAll trees mods) st.dest,
        was_copied := st.was_copied || !(collectAll trees mods).isEmpty } := by
  induction mods generalizing st with
  | nil => simp [collectAll, applyCopies]
  | cons m rest ih =>
    simp only [List.foldl_cons, collectAll]
    rw [copyKeysTree_spec, ih]
    simp [applyCopies_append, appendIsEmpty, Bool.not_and, Bool.or_assoc]

theorem applyCopies_not_mem (l : List (String × String)) (f : String) :
    f ∉ l.map Prod.fst → ∀ d, applyCopies l d f = d f := by
  induction l with
  | nil => intro _ d; rfl
  | cons x xs ih =>
    intro h d
    simp only [List.map_cons, List.mem_cons] at h
    push_neg at h
    simp only [applyCopies]
    rw [ih h.2]
    simp [h.1]

theorem applyCopies_mem_key (l : List (String × String)) (f : String) :
    f ∈ l.map Prod.fst →
      ∀ d, ∃ c : String, applyCopies l d f = some c ∧ (f, c) ∈ l := by
  induction l with
  | nil => intro h; simp at h
  | cons x xs ih =>
    intro h d
    by_cases hx : f ∈ xs.map Prod.fst
    · obtain ⟨c, hc1, hc2⟩ := ih hx (fun p => if p = x.1 then some x.2 else d p)
      refine ⟨c, ?_, List.mem_cons_of_mem x hc2⟩
      simp only [applyCopies]
      exact hc1
    · have hf : f = x.1 := by
        simp only [List.map_cons, List.mem_cons] at h
        tauto
      refine ⟨x.2, ?_, ?_⟩
      · simp only [applyCopies]
        rw [applyCopies_not_mem xs f hx]
        simp [hf]
      · rw [hf]
        exact List.mem_cons_self x xs

/-- C9: the Key Propagator reports the `nothing to copy` outcome exactly when
zero `.bikey` files exist across the updated mods' content trees; when at
least one exists it reports success, and every `.bikey` file name is present
in the flat destination directory with content coming from one of the walked
`.bikey` files (overwriting whatever was there before). -/
theorem c9_key_report (trees : String → KTree) (dest0 : String → Option String)
    (mods : List (String × String)) :
    ((copy_key_files trees dest0 mods).2 = KeyReport.nothingToCopy ↔
      collectAll trees mods = []) ∧
    (collectAll trees mods ≠ [] →
      (copy_key_files trees dest0 mods).2 = KeyReport.success ∧
      ∀ fc ∈ collectAll trees mods,
        ∃ c : String, (copy_key_files trees dest0 mods).1 fc.1 = some c ∧
          (fc.1, c) ∈ collectAll trees mods) := by
  unfold copy_key_files
  rw [copy_key_files_fold]
  cases hCA : collectAll trees mods with
  | nil => simp
  | cons fc0 rest =>
    constructor
    · simp
    · intro hne
      refine ⟨by simp, ?_⟩
      intro fc hfc
      have hmem : fc.1 ∈ (fc0 :: rest).map Prod.fst :=
        List.mem_map_of_mem Prod.fst hfc
      obtain ⟨c, hc1, hc2⟩ := applyCopies_mem_key (fc0 :: rest) fc.1 hmem dest0
      exact ⟨c, hc1, hc2⟩

/-- Witness for `c9_key_report`: one updated mod whose content tree holds one
signing key; the propagator reports success. -/
theorem c9_key_report_witness :
    (copy_key_files ktreesW (fun _ => none) [("foo", "1")]).2 =
      KeyReport.success :=
  ((c9_key_report ktreesW (fun _ => none) [("foo", "1")]).2 (by decide)).1
